import Mathlib

/-!
# Verification of the express trading bot (`src/index.js`)

Shallow embedding of the signal-and-execution engine of the repository:
the simulated ledger (`virtualBtc`/`virtualUsd`), the paper order helper
(`placePaperOrder`), the bounded order log (`recordOrder`), the live-order
admin route (`app.post('/api/live-order')`), the paper-order admin route
(`app.post('/api/paper-order')`) and the strategy loop (`strategyTick`).

JavaScript numbers are modelled by `ℚ` in the finite regime; the special
values `NaN` and `±Infinity`, which matter for the historic-price guard in
`strategyTick`, are modelled by the `JSNum` wrapper.  Network fetches
(ticker price, historic average, ATR) are inputs to the embedded
functions; thrown exceptions are `Option`/sum-style results.
-/

namespace CNBot

/-- A JavaScript number as seen by the historic-price guard: either a
finite value (modelled exactly by `ℚ`), `NaN`, or an infinity. -/
inductive JSNum where
  | nan
  | inf
  | negInf
  | num (q : ℚ)
  deriving DecidableEq

/-- JS truthiness of a number: `0` and `NaN` are falsy, everything else
(including the infinities) is truthy.  Models the `!past` test. -/
def jsTruthy : JSNum → Bool
  | .nan => false
  | .num q => decide (q ≠ 0)
  | .inf => true
  | .negInf => true

/-- JS `isNaN` on a number. -/
def jsIsNaN : JSNum → Bool
  | .nan => true
  | _ => false

/-- The guard `if (!past || isNaN(past))` of `strategyTick`
(src/index.js line 364). -/
def badHistoricGuard (p : JSNum) : Bool :=
  !jsTruthy p || jsIsNaN p

/-- `Number((x).toFixed(6))`: decimal rounding to 6 fractional digits.
JS `toFixed` picks the integer `n` minimising `|n / 10^6 - x|` and on a
tie picks the larger `n`, i.e. round half towards +∞, which is Mathlib's
`round`. -/
def round6 (x : ℚ) : ℚ :=
  (round (x * 1000000) : ℤ) / 1000000

/-- JS `String.prototype.toUpperCase()` on the character sequence, as
applied to product symbols (`product.toUpperCase()`). -/
def jsToUpper (s : String) : String := ⟨s.data.map Char.toUpper⟩

/-- The simulated balances `virtualBtc` / `virtualUsd`
(src/index.js lines 176-177). -/
structure Ledger where
  virtualBtc : ℚ
  virtualUsd : ℚ
  deriving DecidableEq

/-- Both balances start at zero at process start
(`let virtualBtc = 0; let virtualUsd = 0;`). -/
def initialLedger : Ledger := ⟨0, 0⟩

/-- An entry of the recent-order log.  The source also stamps a `time`
string from the wall clock when recording; the timestamp does not affect
the log's capacity/eviction behaviour and is omitted. -/
structure OrderEntry where
  mode : String
  product : String
  side : String
  usd : ℚ
  price : ℚ
  qty : ℚ
  deriving DecidableEq

/-- `recordOrder` (src/index.js lines 180-183): push the entry, then if
the log now exceeds 50 entries, `shift()` (drop the oldest, at index 0). -/
def recordOrder (log : List OrderEntry) (e : OrderEntry) : List OrderEntry :=
  let l := log ++ [e]
  if 50 < l.length then l.drop 1 else l

/-- `placePaperOrder(product, side, usd)` (src/index.js lines 186-235),
with the ticker price fetched inside it passed as `price`.  Returns the
executed quantity `est_qty` and the updated ledger; `none` models the
`throw new Error('bad side ...')` for a side that is neither `'buy'` nor
`'sell'`.  (`product` only feeds the order-log entry and the log line; it
is never validated.)  Order-log recording is modelled separately by
`recordOrder`. -/
def placePaperOrder (product : String) (price : ℚ) (side : String) (usd : ℚ)
    (l : Ledger) : Option (ℚ × Ledger) :=
  let _ := product
  if side = "buy" then
    let qty := round6 (usd / price)
    some (qty, ⟨l.virtualBtc + qty, l.virtualUsd - usd⟩)
  else if side = "sell" then
    let targetQty := usd / price
    let qty := min targetQty l.virtualBtc
    some (qty, ⟨l.virtualBtc - qty, l.virtualUsd + qty * price⟩)
  else
    none

/-- Response of the paper-order route: `200` with the payload, or `500`
from the catch block (thrown bad-side error). -/
inductive PaperOrderResult where
  | ok (qty : ℚ) (l : Ledger)
  | err500
  deriving DecidableEq

/-- `app.post('/api/paper-order')` (src/index.js lines 275-283): the body
fields are destructured and handed to `placePaperOrder` directly — the
route performs no allow-list, amount, or cap check of any kind. -/
def paperOrderRoute (product : String) (price : ℚ) (side : String) (usd : ℚ)
    (l : Ledger) : PaperOrderResult :=
  match placePaperOrder product price side usd l with
  | some (qty, l2) => .ok qty l2
  | none => .err500

/-- The brokerage order body built by `placeLiveOrder`
(src/index.js lines 241-249): market IOC order, quote-denominated size. -/
structure LiveOrderBody where
  product_id : String
  side : String
  quote_size : ℚ
  deriving DecidableEq

/-- Outcome of `app.post('/api/live-order')`: one of the four structured
`400` error responses, or the gateway call with the order body it sends. -/
inductive LiveOrderResult where
  | errPaperMode
  | errUsdNonPositive
  | errExceedsMax (maxTradeUsd : ℚ)
  | errSymbolNotAllowed
  | placed (body : LiveOrderBody)
  deriving DecidableEq

/-- Route configuration: the `PAPER_TRADING` flag, `MAX_TRADE_USD`, and
the upper-cased allow-set parsed from `ALLOWED_PRODUCTS`. -/
structure RouteConfig where
  isPaper : Bool
  maxTradeUsd : ℚ
  allowed : List String
  deriving DecidableEq

/-- `app.post('/api/live-order')` (src/index.js lines 288-324): refuse in
paper mode, then `usd <= 0`, then `usd > MAX_TRADE_USD`, then the
allow-set membership of the upper-cased product; otherwise call
`placeLiveOrder`, which builds the order body and submits it. -/
def liveOrderRoute (cfg : RouteConfig) (product side : String) (usd : ℚ) :
    LiveOrderResult :=
  if cfg.isPaper then .errPaperMode
  else if usd ≤ 0 then .errUsdNonPositive
  else if cfg.maxTradeUsd < usd then .errExceedsMax cfg.maxTradeUsd
  else if ¬ cfg.allowed.contains (jsToUpper product) then .errSymbolNotAllowed
  else .placed ⟨product, jsToUpper side, usd⟩

/-- `bandPct` of `strategyTick` (src/index.js lines 370-375):
`atrPct = atr / past * 100`, then `atrPct * mult` clamped to
`[minPct, maxPct]` via `Math.max(minPct, Math.min(maxPct, bandPct))`. -/
def bandPct (atr past mult minPct maxPct : ℚ) : ℚ :=
  max minPct (min maxPct (atr / past * 100 * mult))

/-- `lower = past * (1 - bandPct / 100)` (src/index.js line 377). -/
def lowerBound (past bp : ℚ) : ℚ := past * (1 - bp / 100)

/-- `upper = past * (1 + bandPct / 100)` (src/index.js line 378). -/
def upperBound (past bp : ℚ) : ℚ := past * (1 + bp / 100)

/-- Per-tick inputs of `strategyTick`: the effective enabled flag, the
two ticker fetches (`current` at line 360 and the one inside
`placePaperOrder` — two separate network calls), the historic average
`past`, the ATR, and the strategy tunables read from the environment. -/
structure TickInputs where
  enabled : Bool
  current : ℚ
  past : JSNum
  atr : ℚ
  mult : ℚ
  minPct : ℚ
  maxPct : ℚ
  buyUsd : ℚ
  sellEnabled : Bool
  maxSellFrac : ℚ
  extraBand : ℚ
  minBtc : ℚ
  cooldownSec : ℤ
  nowSec : ℤ
  fillPrice : ℚ
  deriving DecidableEq

/-- Process-wide mutable strategy state: `lastBuyTimestamp`
(src/index.js line 285) and the simulated ledger. -/
structure BotState where
  lastBuyTimestamp : ℤ
  ledger : Ledger
  deriving DecidableEq

/-- What a single `strategyTick` invocation did. -/
inductive TickResult where
  | disabled
  | abortBadHistoric
  | skipCooldown
  | bought (qty : ℚ)
  | sold (qty : ℚ)
  | errCaught
  | proceedNonFinite
  | noAction
  deriving DecidableEq

/-- The body of `strategyTick` after the enabled flag and the historic
guard have passed with a finite reference price `p` (src/index.js lines
369-442): derive the band, buy on a dip subject to the cooldown, else
sell a fraction on a strong high, else do nothing.  A successful buy sets
`lastBuyTimestamp := nowSec`; no other branch touches it. -/
def strategyTickCore (c : TickInputs) (p : ℚ) (s : BotState) :
    TickResult × BotState :=
  let bp := bandPct c.atr p c.mult c.minPct c.maxPct
  if c.current ≤ lowerBound p bp then
    if c.nowSec - s.lastBuyTimestamp < c.cooldownSec then
      (.skipCooldown, s)
    else
      match placePaperOrder "" c.fillPrice "buy" c.buyUsd s.ledger with
      | some (qty, l2) => (.bought qty, ⟨c.nowSec, l2⟩)
      | none => (.errCaught, s)
  else if c.sellEnabled = true ∧ c.minBtc < s.ledger.virtualBtc ∧
      upperBound p bp * (1 + c.extraBand / 100) ≤ c.current then
    match placePaperOrder "" c.fillPrice "sell"
        (s.ledger.virtualBtc * c.maxSellFrac * c.current) s.ledger with
    | some (qty, l2) => (.sold qty, ⟨s.lastBuyTimestamp, l2⟩)
    | none => (.errCaught, s)
  else
    (.noAction, s)

/-- `strategyTick` (src/index.js lines 347-446).  Returns immediately if
the strategy is disabled; aborts the tick if the historic price fails the
`!past || isNaN(past)` guard.  An infinite reference price passes the
guard and the code continues into non-finite float arithmetic, outside
the finite regime modelled here; that continuation is marked
`proceedNonFinite` (no claim depends on its value, only on the fact the
tick did not abort). -/
def strategyTick (c : TickInputs) (s : BotState) : TickResult × BotState :=
  if c.enabled = false then (.disabled, s)
  else if badHistoricGuard c.past = true then (.abortBadHistoric, s)
  else
    match c.past with
    | .num p => strategyTickCore c p s
    | _ => (.proceedNonFinite, s)

/-! ## Helper lemmas -/

/-- Unfolding `placePaperOrder` on the `'buy'` branch. -/
theorem placePaperOrder_buy (product : String) (price usd : ℚ) (l : Ledger) :
    placePaperOrder product price "buy" usd l =
      some (round6 (usd / price),
        ⟨l.virtualBtc + round6 (usd / price), l.virtualUsd - usd⟩) := rfl

/-- Unfolding `placePaperOrder` on the `'sell'` branch. -/
theorem placePaperOrder_sell (product : String) (price usd : ℚ) (l : Ledger) :
    placePaperOrder product price "sell" usd l =
      some (min (usd / price) l.virtualBtc,
        ⟨l.virtualBtc - min (usd / price) l.virtualBtc,
         l.virtualUsd + min (usd / price) l.virtualBtc * price⟩) := rfl

/-- The guard `!past || isNaN(past)` fires exactly on `NaN` and `0`:
infinities and all nonzero finite values pass it. -/
theorem badHistoricGuard_eq_true_iff (p : JSNum) :
    badHistoricGuard p = true ↔ p = .nan ∨ p = .num 0 := by
  cases p <;> simp [badHistoricGuard, jsTruthy, jsIsNaN]

/-- The post-guard body of the tick never reports the historic-guard
abort: its outcomes are skip/buy/sell/no-action/caught-error only. -/
theorem strategyTickCore_fst_ne_abort (c : TickInputs) (p : ℚ) (s : BotState) :
    (strategyTickCore c p s).1 ≠ .abortBadHistoric := by
  unfold strategyTickCore
  rw [placePaperOrder_buy, placePaperOrder_sell]
  by_cases h1 : c.current ≤ lowerBound p (bandPct c.atr p c.mult c.minPct c.maxPct)
  · by_cases h2 : c.nowSec - s.lastBuyTimestamp < c.cooldownSec <;>
      simp [h1, h2]
  · by_cases h3 : c.sellEnabled = true ∧ c.minBtc < s.ledger.virtualBtc ∧
        upperBound p (bandPct c.atr p c.mult c.minPct c.maxPct) *
          (1 + c.extraBand / 100) ≤ c.current <;>
      simp [h1, h3]

/-! ## Claims -/

/-- **C1.** For every live-order request arriving while the process-wide
paper-trading flag is active, the route answers with the structured
`400 { error: 'paper mode enabled …' }` response — whatever the pair,
side, or amount — and in particular never reaches the `placeLiveOrder`
brokerage call (the only branch producing `placed`). -/
theorem liveOrder_refused_in_paper_mode (cfg : RouteConfig)
    (product side : String) (usd : ℚ) (h : cfg.isPaper = true) :
    liveOrderRoute cfg product side usd = .errPaperMode := by
  simp [liveOrderRoute, h]

/-- Witness for C1 at a concrete request. -/
theorem liveOrder_refused_in_paper_mode_witness :
    (⟨true, 500, ["BTC-USD", "ETH-USD"]⟩ : RouteConfig).isPaper = true ∧
    liveOrderRoute ⟨true, 500, ["BTC-USD", "ETH-USD"]⟩ "BTC-USD" "buy" 5 =
      .errPaperMode :=
  ⟨rfl, liveOrder_refused_in_paper_mode _ "BTC-USD" "buy" 5 rfl⟩

/-- **C2, counterexample.** A paper-mode execution request with a pair
outside the allow-set (`DOGE-USD`) *and* a negative amount (`-5`) does
not fail with a `RiskViolation`: the paper-order route performs no risk
check at all and happily returns an order (with a negative quantity,
crediting the quote balance). -/
theorem paperOrder_skips_risk_checks_cex :
    paperOrderRoute "DOGE-USD" 50000 "buy" (-5) initialLedger =
      .ok (-1 / 10000) ⟨-1 / 10000, 5⟩ := by
  simp only [paperOrderRoute, placePaperOrder_buy, initialLedger]
  norm_num [round6, round_eq, Ledger.mk.injEq]

/-- **C2 (amended).** The `RiskViolation`-style checks exist only on the
live-order route: with the paper flag off, a live request fails before
the gateway call when the amount is ≤ 0, when it exceeds
`MAX_TRADE_USD`, or when the upper-cased pair is not in the allow-set,
and otherwise submits the order body; the paper-order route applies none
of these checks and returns an order for every buy request. -/
theorem riskChecks_live_only (cfg : RouteConfig) (product side : String)
    (usd : ℚ) (hp : cfg.isPaper = false) :
    (usd ≤ 0 → liveOrderRoute cfg product side usd = .errUsdNonPositive) ∧
    (0 < usd → cfg.maxTradeUsd < usd →
      liveOrderRoute cfg product side usd = .errExceedsMax cfg.maxTradeUsd) ∧
    (0 < usd → usd ≤ cfg.maxTradeUsd →
      cfg.allowed.contains (jsToUpper product) = false →
      liveOrderRoute cfg product side usd = .errSymbolNotAllowed) ∧
    (0 < usd → usd ≤ cfg.maxTradeUsd →
      cfg.allowed.contains (jsToUpper product) = true →
      liveOrderRoute cfg product side usd =
        .placed ⟨product, jsToUpper side, usd⟩) ∧
    (∀ (price : ℚ) (l : Ledger), ∃ qty l2,
      paperOrderRoute product price "buy" usd l = .ok qty l2) := by
  refine ⟨fun h1 => ?_, fun h1 h2 => ?_, fun h1 h2 h3 => ?_,
    fun h1 h2 h3 => ?_, fun price l => ?_⟩
  · simp [liveOrderRoute, hp, h1]
  · simp [liveOrderRoute, hp, h2, not_le.mpr h1]
  · simp only [liveOrderRoute, hp, Bool.false_eq_true, if_false,
      if_neg (not_le.mpr h1), if_neg (not_lt.mpr h2)]
    rw [if_pos]
    simpa using h3
  · simp only [liveOrderRoute, hp, Bool.false_eq_true, if_false,
      if_neg (not_le.mpr h1), if_neg (not_lt.mpr h2)]
    rw [if_neg]
    simpa using h3
  · exact ⟨_, _, by rw [paperOrderRoute, placePaperOrder_buy]⟩

/-- Witness for C2's amended statement at a concrete allowed request. -/
theorem riskChecks_live_only_witness :
    (⟨false, 500, ["BTC-USD", "ETH-USD"]⟩ : RouteConfig).isPaper = false ∧
    (0 : ℚ) < 5 ∧ (5 : ℚ) ≤ 500 ∧
    ["BTC-USD", "ETH-USD"].contains (jsToUpper "BTC-USD") = true ∧
    liveOrderRoute ⟨false, 500, ["BTC-USD", "ETH-USD"]⟩ "BTC-USD" "buy" 5 =
      .placed ⟨"BTC-USD", jsToUpper "buy", 5⟩ :=
  ⟨rfl, by norm_num, by norm_num, by decide,
    (riskChecks_live_only ⟨false, 500, ["BTC-USD", "ETH-USD"]⟩ "BTC-USD"
      "buy" 5 rfl).2.2.2.1 (by norm_num) (by norm_num) (by decide)⟩

/-- **C3.** A paper sell whose requested target quantity `usd / price`
exceeds the held base balance executes exactly the held balance: the
quantity is capped by `Math.min`, the base balance is zeroed, and the
quote balance is credited `balance × price`. -/
theorem paperSell_capped (product : String) (price usd : ℚ) (l : Ledger)
    (hpr : 0 < price) (hover : l.virtualBtc < usd / price) :
    placePaperOrder product price "sell" usd l =
      some (l.virtualBtc, ⟨0, l.virtualUsd + l.virtualBtc * price⟩) := by
  rw [placePaperOrder_sell, min_eq_right hover.le, sub_self]

/-- Witness for C3: `baseBalance = 0.01`, requested target quantity
`2500 / 50000 = 0.05` → executed quantity `0.01`, base balance `0`. -/
theorem paperSell_capped_witness :
    (0 : ℚ) < 50000 ∧ (1 / 100 : ℚ) < 2500 / 50000 ∧
    placePaperOrder "BTC-USD" 50000 "sell" 2500 ⟨1 / 100, 0⟩ =
      some (1 / 100, ⟨0, 0 + 1 / 100 * 50000⟩) :=
  ⟨by norm_num, by norm_num,
    paperSell_capped "BTC-USD" 50000 2500 ⟨1 / 100, 0⟩ (by norm_num)
      (by norm_num)⟩

/-- **C4.** A paper buy of `usd` at price `p` increases the base balance
by exactly `round(usd / p, 6)` — `Number((usd / t.price).toFixed(6))` —
and decreases the quote balance by exactly `usd`; for the literal inputs
`usd = 100`, `p = 50000` the executed quantity is exactly `0.002`. -/
theorem paperBuy_exact_rounding :
    (∀ (product : String) (price usd : ℚ) (l : Ledger), 0 < price →
      placePaperOrder product price "buy" usd l =
        some (round6 (usd / price),
          ⟨l.virtualBtc + round6 (usd / price), l.virtualUsd - usd⟩)) ∧
    round6 ((100 : ℚ) / 50000) = 2 / 1000 :=
  ⟨fun product price usd l _ => placePaperOrder_buy product price usd l,
   by norm_num [round6]⟩

/-- Witness for C4 at the literal inputs of the claim. -/
theorem paperBuy_exact_rounding_witness :
    (0 : ℚ) < 50000 ∧
    placePaperOrder "BTC-USD" 50000 "buy" 100 initialLedger =
      some (round6 (100 / 50000),
        ⟨initialLedger.virtualBtc + round6 (100 / 50000),
         initialLedger.virtualUsd - 100⟩) :=
  ⟨by norm_num,
    paperBuy_exact_rounding.1 "BTC-USD" 50000 100 initialLedger (by norm_num)⟩

/-- **C10.** A paper buy is never rejected for insufficient funds: for
every positive `usd` and price the buy returns an order and debits the
quote balance by `usd` unconditionally, so starting from the initial
all-zero ledger the first paper buy leaves the quote balance strictly
negative — no operation maintains `quoteBalance ≥ 0`. -/
theorem paperBuy_ignores_balance (product : String) (price usd : ℚ)
    (l : Ledger) (hu : 0 < usd) (hp : 0 < price) :
    placePaperOrder product price "buy" usd l =
      some (round6 (usd / price),
        ⟨l.virtualBtc + round6 (usd / price), l.virtualUsd - usd⟩) ∧
    (l = initialLedger → l.virtualUsd - usd < 0) := by
  refine ⟨placePaperOrder_buy product price usd l, fun hl => ?_⟩
  rw [hl]
  show (0 : ℚ) - usd < 0
  linarith

/-- Witness for C10: the very first paper buy, from the zero ledger,
drives the quote balance to `-100 < 0`. -/
theorem paperBuy_ignores_balance_witness :
    (0 : ℚ) < 100 ∧ (0 : ℚ) < 50000 ∧
    (placePaperOrder "CHEAP-USD" 50000 "buy" 100 initialLedger =
      some (round6 (100 / 50000),
        ⟨initialLedger.virtualBtc + round6 (100 / 50000),
         initialLedger.virtualUsd - 100⟩) ∧
    (initialLedger = initialLedger →
      initialLedger.virtualUsd - 100 < 0)) :=
  ⟨by norm_num, by norm_num,
    paperBuy_ignores_balance "CHEAP-USD" 50000 100 initialLedger
      (by norm_num) (by norm_num)⟩

/-- `recordOrder` on a log that is not yet full just appends. -/
theorem recordOrder_small (log : List OrderEntry) (e : OrderEntry)
    (h : log.length ≤ 49) : recordOrder log e = log ++ [e] := by
  unfold recordOrder
  rw [if_neg]
  simp only [List.length_append, List.length_cons, List.length_nil]
  omega

/-- `recordOrder` on a full log appends and evicts the oldest entry. -/
theorem recordOrder_full (log : List OrderEntry) (e : OrderEntry)
    (h : 50 ≤ log.length) : recordOrder log e = (log ++ [e]).drop 1 := by
  unfold recordOrder
  rw [if_pos]
  simp only [List.length_append, List.length_cons, List.length_nil]
  omega

/-- Folding `recordOrder` from the empty log keeps exactly the last 50
entries, in insertion order. -/
theorem recordOrder_foldl_eq_drop (es : List OrderEntry) :
    es.foldl recordOrder [] = es.drop (es.length - 50) := by
  induction es using List.reverseRecOn with
  | nil => rfl
  | append_singleton es e ih =>
    rw [List.foldl_append, List.foldl_cons, List.foldl_nil, ih]
    by_cases h : es.length ≤ 49
    · have h0 : es.length - 50 = 0 := by omega
      have h1 : (es ++ [e]).length - 50 = 0 := by
        simp only [List.length_append, List.length_cons, List.length_nil]
        omega
      rw [h0, h1, List.drop_zero, List.drop_zero,
        recordOrder_small es e h]
    · have h50 : 50 ≤ (es.drop (es.length - 50)).length := by
        rw [List.length_drop]
        omega
      have hlen : (es ++ [e]).length = es.length + 1 := by simp
      rw [recordOrder_full _ e h50,
        List.drop_append_of_le_length (by rw [List.length_drop]; omega),
        List.drop_drop, hlen,
        List.drop_append_of_le_length (by omega)]
      congr 2
      omega

/-- **C6.** The order log never exceeds 50 entries under any sequence of
insertions, and it always consists of the most recent insertions in
insertion order: after `n` insertions the log is the input sequence with
its first `n - 50` entries evicted.  In particular after 51 insertions
the log is the input with its first element dropped, so index 0 holds
the order that was inserted 2nd. -/
theorem orderLog_bounded_fifo (es : List OrderEntry) :
    (es.foldl recordOrder []).length ≤ 50 ∧
    es.foldl recordOrder [] = es.drop (es.length - 50) := by
  refine ⟨?_, recordOrder_foldl_eq_drop es⟩
  rw [recordOrder_foldl_eq_drop es, List.length_drop]
  omega

/-- **C7.** With `minBandPct ≤ maxBandPct`, the derived band percent is
exactly `atrPct × multiplier` when that product lies within
`[minBandPct, maxBandPct]`, is `minBandPct` when the product falls
below, and is `maxBandPct` when it shoots above. -/
theorem bandPct_clamps (atr past mult minPct maxPct : ℚ)
    (h : minPct ≤ maxPct) :
    (minPct ≤ atr / past * 100 * mult → atr / past * 100 * mult ≤ maxPct →
      bandPct atr past mult minPct maxPct = atr / past * 100 * mult) ∧
    (atr / past * 100 * mult < minPct →
      bandPct atr past mult minPct maxPct = minPct) ∧
    (maxPct < atr / past * 100 * mult →
      bandPct atr past mult minPct maxPct = maxPct) := by
  unfold bandPct
  refine ⟨fun h1 h2 => ?_, fun h1 => ?_, fun h1 => ?_⟩
  · rw [min_eq_right h2, max_eq_right h1]
  · rw [min_eq_right (le_of_lt (lt_of_lt_of_le h1 h)),
      max_eq_left (le_of_lt h1)]
  · rw [min_eq_left (le_of_lt h1), max_eq_right h]

/-- Witness for C7 on the spec's scenario: `atrPct = 2`, `mult = 1.2`,
`minBandPct = 1`, `maxBandPct = 5` — the product `2.4` is in range. -/
theorem bandPct_clamps_witness :
    (1 : ℚ) ≤ 5 ∧ (1 : ℚ) ≤ 2 / 100 * 100 * (6 / 5) ∧
    (2 : ℚ) / 100 * 100 * (6 / 5) ≤ 5 ∧
    bandPct 2 100 (6 / 5) 1 5 = 2 / 100 * 100 * (6 / 5) :=
  ⟨by norm_num, by norm_num, by norm_num,
    (bandPct_clamps 2 100 (6 / 5) 1 5 (by norm_num)).1 (by norm_num)
      (by norm_num)⟩

/-- **C8.** For a positive reference price and a nonnegative band
percent, the band contains the reference:
`reference × (1 − bandPct/100) ≤ reference ≤ reference × (1 + bandPct/100)`. -/
theorem band_contains_reference (past bp : ℚ) (hp : 0 < past)
    (hb : 0 ≤ bp) :
    lowerBound past bp ≤ past ∧ past ≤ upperBound past bp := by
  unfold lowerBound upperBound
  constructor <;> nlinarith

/-- Witness for C8 on the spec's scenario: reference `50000`, band
percent `2.4` → `48800 ≤ 50000 ≤ 51200`. -/
theorem band_contains_reference_witness :
    (0 : ℚ) < 50000 ∧ (0 : ℚ) ≤ 12 / 5 ∧
    (lowerBound 50000 (12 / 5) ≤ 50000 ∧
      (50000 : ℚ) ≤ upperBound 50000 (12 / 5)) :=
  ⟨by norm_num, by norm_num,
    band_contains_reference 50000 (12 / 5) (by norm_num) (by norm_num)⟩

/-- A tick with the strategy enabled and a finite nonzero historic price
that triggers the buy rule outside the cooldown window: it buys
`buyUsd` at the fill price and sets `lastBuyTimestamp := nowSec`. -/
theorem strategyTick_buys (c : TickInputs) (s : BotState) (p : ℚ)
    (he : c.enabled = true) (hp : c.past = .num p) (hz : p ≠ 0)
    (htrig : c.current ≤
      lowerBound p (bandPct c.atr p c.mult c.minPct c.maxPct))
    (hcool : c.cooldownSec ≤ c.nowSec - s.lastBuyTimestamp) :
    strategyTick c s = (.bought (round6 (c.buyUsd / c.fillPrice)),
      ⟨c.nowSec, ⟨s.ledger.virtualBtc + round6 (c.buyUsd / c.fillPrice),
        s.ledger.virtualUsd - c.buyUsd⟩⟩) := by
  unfold strategyTick
  rw [hp, if_neg (by simp [he]),
    if_neg (by simp [badHistoricGuard, jsTruthy, jsIsNaN, hz])]
  show strategyTickCore c p s = _
  unfold strategyTickCore
  rw [if_pos htrig, if_neg (not_lt.mpr hcool), placePaperOrder_buy]

/-- A buy-triggering tick inside the cooldown window is skipped and the
state (in particular `lastBuyTimestamp`) is left untouched. -/
theorem strategyTick_skips (c : TickInputs) (s : BotState) (p : ℚ)
    (he : c.enabled = true) (hp : c.past = .num p) (hz : p ≠ 0)
    (htrig : c.current ≤
      lowerBound p (bandPct c.atr p c.mult c.minPct c.maxPct))
    (hcool : c.nowSec - s.lastBuyTimestamp < c.cooldownSec) :
    strategyTick c s = (.skipCooldown, s) := by
  unfold strategyTick
  rw [hp, if_neg (by simp [he]),
    if_neg (by simp [badHistoricGuard, jsTruthy, jsIsNaN, hz])]
  show strategyTickCore c p s = _
  unfold strategyTickCore
  rw [if_pos htrig, if_pos hcool]

/-- **C5.** Three buy-triggering ticks with a common cooldown: the first
(outside the cooldown) buys and sets `lastBuyTimestamp` to its time, the
second (less than `cooldownSeconds` after the executed buy) is skipped
with the state untouched, and the third (at least `cooldownSeconds`
after the executed buy) buys again — exactly one buy among the first
two, and `lastBuyTimestamp` is updated only by the successful buys. -/
theorem cooldown_one_buy (c1 c2 c3 : TickInputs) (s0 : BotState)
    (p1 p2 p3 : ℚ)
    (he1 : c1.enabled = true) (he2 : c2.enabled = true)
    (he3 : c3.enabled = true)
    (hp1 : c1.past = .num p1) (hp2 : c2.past = .num p2)
    (hp3 : c3.past = .num p3)
    (hz1 : p1 ≠ 0) (hz2 : p2 ≠ 0) (hz3 : p3 ≠ 0)
    (ht1 : c1.current ≤
      lowerBound p1 (bandPct c1.atr p1 c1.mult c1.minPct c1.maxPct))
    (ht2 : c2.current ≤
      lowerBound p2 (bandPct c2.atr p2 c2.mult c2.minPct c2.maxPct))
    (ht3 : c3.current ≤
      lowerBound p3 (bandPct c3.atr p3 c3.mult c3.minPct c3.maxPct))
    (hcd2 : c2.cooldownSec = c1.cooldownSec)
    (hcd3 : c3.cooldownSec = c1.cooldownSec)
    (helig : c1.cooldownSec ≤ c1.nowSec - s0.lastBuyTimestamp)
    (hwithin : c2.nowSec - c1.nowSec < c1.cooldownSec)
    (hafter : c1.cooldownSec ≤ c3.nowSec - c1.nowSec) :
    (strategyTick c1 s0).1 = .bought (round6 (c1.buyUsd / c1.fillPrice)) ∧
    (strategyTick c1 s0).2.lastBuyTimestamp = c1.nowSec ∧
    (strategyTick c2 (strategyTick c1 s0).2).1 = .skipCooldown ∧
    (strategyTick c2 (strategyTick c1 s0).2).2 = (strategyTick c1 s0).2 ∧
    (strategyTick c3 (strategyTick c2 (strategyTick c1 s0).2).2).1 =
      .bought (round6 (c3.buyUsd / c3.fillPrice)) ∧
    (strategyTick c3
      (strategyTick c2 (strategyTick c1 s0).2).2).2.lastBuyTimestamp =
      c3.nowSec := by
  have h1 := strategyTick_buys c1 s0 p1 he1 hp1 hz1 ht1 helig
  rw [h1]
  have h2 := strategyTick_skips c2
    ⟨c1.nowSec, ⟨s0.ledger.virtualBtc + round6 (c1.buyUsd / c1.fillPrice),
      s0.ledger.virtualUsd - c1.buyUsd⟩⟩ p2 he2 hp2 hz2 ht2
    (by rw [hcd2]; exact hwithin)
  rw [h2]
  have h3 := strategyTick_buys c3
    ⟨c1.nowSec, ⟨s0.ledger.virtualBtc + round6 (c1.buyUsd / c1.fillPrice),
      s0.ledger.virtualUsd - c1.buyUsd⟩⟩ p3 he3 hp3 hz3 ht3
    (by rw [hcd3]; exact hafter)
  rw [h3]
  exact ⟨rfl, rfl, rfl, rfl, rfl, rfl⟩

/-- First concrete buy-triggering tick for the C5 witness: reference
`100`, ATR `2`, multiplier `1.2`, band clamp `[1, 5]` → band `2.4`,
lower bound `97.6`; current price `97` triggers; time `1800` s. -/
def c5tick1 : TickInputs :=
  { enabled := true, current := 97, past := .num 100, atr := 2,
    mult := 6 / 5, minPct := 1, maxPct := 5, buyUsd := 5,
    sellEnabled := false, maxSellFrac := 1 / 5, extraBand := 1 / 2,
    minBtc := 1 / 100000, cooldownSec := 1800, nowSec := 1800,
    fillPrice := 100 }

/-- Second tick of the C5 witness: 100 s after the first (inside the
1800 s cooldown). -/
def c5tick2 : TickInputs := { c5tick1 with nowSec := 1900 }

/-- Third tick of the C5 witness: exactly 1800 s after the first buy. -/
def c5tick3 : TickInputs := { c5tick1 with nowSec := 3600 }

/-- Witness for C5: with the ticks above from the pristine state, the
first tick buys at `1800`, the second is skipped, the third buys at
`3600`. -/
theorem cooldown_one_buy_witness :
    c5tick1.enabled = true ∧ c5tick1.past = .num 100 ∧ (100 : ℚ) ≠ 0 ∧
    c5tick1.current ≤ lowerBound 100
      (bandPct c5tick1.atr 100 c5tick1.mult c5tick1.minPct c5tick1.maxPct) ∧
    c5tick1.cooldownSec ≤ c5tick1.nowSec -
      (⟨0, ⟨0, 0⟩⟩ : BotState).lastBuyTimestamp ∧
    c5tick2.nowSec - c5tick1.nowSec < c5tick1.cooldownSec ∧
    c5tick1.cooldownSec ≤ c5tick3.nowSec - c5tick1.nowSec ∧
    ((strategyTick c5tick1 ⟨0, ⟨0, 0⟩⟩).1 =
        .bought (round6 (c5tick1.buyUsd / c5tick1.fillPrice)) ∧
      (strategyTick c5tick1 ⟨0, ⟨0, 0⟩⟩).2.lastBuyTimestamp =
        c5tick1.nowSec ∧
      (strategyTick c5tick2 (strategyTick c5tick1 ⟨0, ⟨0, 0⟩⟩).2).1 =
        .skipCooldown ∧
      (strategyTick c5tick2 (strategyTick c5tick1 ⟨0, ⟨0, 0⟩⟩).2).2 =
        (strategyTick c5tick1 ⟨0, ⟨0, 0⟩⟩).2 ∧
      (strategyTick c5tick3
          (strategyTick c5tick2 (strategyTick c5tick1 ⟨0, ⟨0, 0⟩⟩).2).2).1 =
        .bought (round6 (c5tick3.buyUsd / c5tick3.fillPrice)) ∧
      (strategyTick c5tick3
          (strategyTick c5tick2
            (strategyTick c5tick1 ⟨0, ⟨0, 0⟩⟩).2).2).2.lastBuyTimestamp =
        c5tick3.nowSec) :=
  ⟨rfl, rfl, by norm_num,
    by norm_num [c5tick1, lowerBound, bandPct, min_def, max_def],
    by norm_num [c5tick1], by norm_num [c5tick1, c5tick2],
    by norm_num [c5tick1, c5tick3],
    cooldown_one_buy c5tick1 c5tick2 c5tick3 ⟨0, ⟨0, 0⟩⟩ 100 100 100
      rfl rfl rfl rfl rfl rfl (by norm_num) (by norm_num) (by norm_num)
      (by norm_num [c5tick1, lowerBound, bandPct, min_def, max_def])
      (by norm_num [c5tick1, c5tick2, lowerBound, bandPct, min_def, max_def])
      (by norm_num [c5tick1, c5tick3, lowerBound, bandPct, min_def, max_def])
      rfl rfl
      (by norm_num [c5tick1]) (by norm_num [c5tick1, c5tick2])
      (by norm_num [c5tick1, c5tick3])⟩

/-- **C9, counterexample.** A tick whose fetched reference price is the
negative finite value `−100` (so "≤ 0" per the claim) is *not* aborted:
`!past || isNaN(past)` only fires on `0` and `NaN`.  The tick goes on to
compute the (negative) band, and — since any positive current price
clears the negative sell threshold — even places a paper sell order,
selling 20% of the held balance. -/
theorem tick_negative_reference_cex :
    strategyTick
      { enabled := true, current := 50, past := .num (-100), atr := 0,
        mult := 6 / 5, minPct := 1, maxPct := 5, buyUsd := 5,
        sellEnabled := true, maxSellFrac := 1 / 5, extraBand := 1 / 2,
        minBtc := 1 / 100000, cooldownSec := 1800, nowSec := 10000,
        fillPrice := 50 }
      ⟨0, ⟨1, 0⟩⟩ = (.sold (1 / 5), ⟨0, ⟨4 / 5, 10⟩⟩) := by
  unfold strategyTick
  rw [if_neg (by simp), if_neg (by simp [badHistoricGuard, jsTruthy, jsIsNaN])]
  show strategyTickCore _ (-100) _ = _
  unfold strategyTickCore
  rw [if_neg (by norm_num [lowerBound, bandPct, min_def, max_def]),
    if_pos ⟨rfl, by norm_num, by norm_num [upperBound, bandPct, min_def, max_def]⟩,
    placePaperOrder_sell]
  norm_num [min_def]

/-- **C9 (amended).** With the strategy enabled, a tick aborts on the
historic-price guard exactly when the fetched reference price is `NaN`
or `0` (the JS-falsy numbers); negative and infinite reference prices
pass the guard and the tick proceeds to the band computation. -/
theorem tick_aborts_iff_nan_or_zero (c : TickInputs) (s : BotState)
    (he : c.enabled = true) :
    (strategyTick c s).1 = .abortBadHistoric ↔
      (c.past = .nan ∨ c.past = .num 0) := by
  unfold strategyTick
  rw [if_neg (by simp [he])]
  by_cases hg : badHistoricGuard c.past = true
  · rw [if_pos hg]
    simpa using (badHistoricGuard_eq_true_iff c.past).mp hg
  · rw [if_neg hg]
    cases hpast : c.past with
    | nan => rw [hpast] at hg; simp [badHistoricGuard, jsTruthy] at hg
    | inf => simp
    | negInf => simp
    | num p =>
      rw [hpast] at hg
      simp only [badHistoricGuard, jsTruthy, jsIsNaN, Bool.or_false,
        Bool.not_eq_true', Bool.not_eq_false, decide_eq_true_eq,
        Decidable.not_not] at hg
      simp [strategyTickCore_fst_ne_abort c p s, hg]

/-- Witness for C9's amended statement: an enabled tick with reference
price `0` does abort. -/
theorem tick_aborts_iff_nan_or_zero_witness :
    (c5tick1 : TickInputs).enabled = true ∧
    ((strategyTick { c5tick1 with past := .num 0 } ⟨0, ⟨0, 0⟩⟩).1 =
        .abortBadHistoric ↔
      (({ c5tick1 with past := .num 0 } : TickInputs).past = .nan ∨
        ({ c5tick1 with past := .num 0 } : TickInputs).past = .num 0)) :=
  ⟨rfl, tick_aborts_iff_nan_or_zero { c5tick1 with past := .num 0 }
    ⟨0, ⟨0, 0⟩⟩ rfl⟩

end CNBot
